import Mathlib

/-!
# Verification of the git-auto-fetch orchestration core

Shallow embedding of `src/main.rs`. The external collaborators (the git2
VCS client, the config loader, the log4rs logger) are modelled by their
response values; the program logic — the worker body `handle_repository`
and the spawn/join loop of `main` — is translated from the source.

A Rust `unwrap` on an `Err` panics; a panic is modelled as an
`Except.error` value carrying the panic site and its payload. A worker
thread therefore either terminates normally (`Except.ok ()`, the Rust
function returns `()`) or terminates abnormally with a `Panic`.
`thread::join` on a panicked thread yields `Err`, and `main`'s
`join().unwrap()` turns that into a panic of the main thread.
-/

namespace GitAutoFetch

/-- A git2-level error value, the abstract payload of a failed VCS call. -/
structure GitError where
  message : String
deriving DecidableEq

/-- The task descriptor: `GitRepository` in `src/main.rs` (local path,
remote name, branches to fetch). Paths are modelled as strings. -/
structure GitRepository where
  local_path : String
  remote : String
  fetch_branches : List String
deriving DecidableEq

/-- `Config` in `src/main.rs`: the deserialized task list. -/
structure Config where
  repositories : List GitRepository
deriving DecidableEq

/-- Responses of the external VCS client (git2), one oracle per operation
consumed by the program: `Repository::open`, `Repository::find_remote`,
`Remote::fetch`. Handles are abstracted away: the open and remote lookups
are keyed by the local path (and remote name) they were derived from. -/
structure VcsEnv where
  repoOpen : String → Except GitError Unit
  findRemote : String → String → Except GitError Unit
  fetch : String → String → List String → Except GitError Unit

/-- Payload of a panic raised inside `handle_repository`: the worker has
exactly two `unwrap` sites — `Repository::open(..).unwrap()` and the final
`result.unwrap()` (the latter covers both a `find_remote` error and a
`fetch` error). -/
inductive Panic where
  | openUnwrap (e : GitError)
  | resultUnwrap (e : GitError)
deriving DecidableEq

/-- `handle_repository` from `src/main.rs`, the body of one worker thread:

```rust
let repository = git2::Repository::open(local_path).unwrap();
let remote = repository.find_remote(&remote);
let result = match remote {
    Ok(mut remote) => remote.fetch(&fetch_branches, None, None),
    Err(error) => Err(error),
};
result.unwrap()
```

It returns `()` when every VCS call succeeds and panics at the first
failing `unwrap` otherwise; no outcome value is returned on failure. -/
def handle_repository (env : VcsEnv) (r : GitRepository) : Except Panic Unit :=
  match env.repoOpen r.local_path with
  | .error e => .error (.openUnwrap e)
  | .ok _ =>
    let remote := env.findRemote r.local_path r.remote
    let result : Except GitError Unit :=
      match remote with
      | .ok _ => env.fetch r.local_path r.remote r.fetch_branches
      | .error e => .error e
    match result with
    | .ok _ => .ok ()
    | .error e => .error (.resultUnwrap e)

/-- The spec's failure taxonomy for a single task (§7). -/
inductive FailureReason where
  | NotFound
  | RemoteNotFound
  | FetchFailed (cause : GitError)
deriving DecidableEq

/-- The spec's per-task `Sync Outcome` (§3): `Success` or
`Failure(reason, task_identity)` where the identity is the local path. -/
inductive SyncOutcome where
  | Success
  | Failure (reason : FailureReason) (task_identity : String)
deriving DecidableEq

/-- Follows the spec's words (§4.2, Sync Worker contract), for comparison
with the translated `handle_repository`: open the repository at
`task.local_path`; if that fails the outcome is
`Failure(NotFound, task.local_path)`. Otherwise resolve `task.remote_name`;
if that fails, `Failure(RemoteNotFound, task.local_path)`. Otherwise fetch
`task.branches`; a fetch failure yields
`Failure(FetchFailed(cause), task.local_path)`; absence of any failure
yields `Success`. -/
def specWorkerRun (env : VcsEnv) (task : GitRepository) : SyncOutcome :=
  match env.repoOpen task.local_path with
  | .error _ => .Failure .NotFound task.local_path
  | .ok _ =>
    match env.findRemote task.local_path task.remote with
    | .error _ => .Failure .RemoteNotFound task.local_path
    | .ok _ =>
      match env.fetch task.local_path task.remote task.fetch_branches with
      | .error cause => .Failure (.FetchFailed cause) task.local_path
      | .ok _ => .Success

/-- A worker terminates normally exactly when its spec-level outcome is
`Success`. -/
theorem worker_ok_iff_success (env : VcsEnv) (r : GitRepository) :
    handle_repository env r = .ok () ↔ specWorkerRun env r = .Success := by
  unfold handle_repository specWorkerRun
  cases h1 : env.repoOpen r.local_path with
  | error e => simp
  | ok u =>
    cases h2 : env.findRemote r.local_path r.remote with
    | error e => simp
    | ok v =>
      cases h3 : env.fetch r.local_path r.remote r.fetch_branches with
      | error e => simp
      | ok w => simp

deriving instance DecidableEq for Except

/-- Failure of `load_config` (a `config::ConfigError` / deserialization
error), abstracted to its message. -/
structure ConfigError where
  message : String
deriving DecidableEq

/-- Failure of `init_logging` (a log4rs configuration or init error),
abstracted to its message. -/
structure LogError where
  message : String
deriving DecidableEq

/-- Payload of a panic of the main thread: either the
`load_config(config_file).unwrap()` site or a `cur_thread.join().unwrap()`
site (the joined worker's own panic). -/
inductive MainPanic where
  | configUnwrap (e : ConfigError)
  | joinUnwrap (p : Panic)
deriving DecidableEq

/-- How the main thread ends: returns from `main` (process exit code 0) or
panics (process exit code 101). -/
inductive MainResult where
  | exited0
  | panicked (p : MainPanic)
deriving DecidableEq

/-- Process exit code determined by how `main` ends. -/
def exitCode : MainResult → Nat
  | .exited0 => 0
  | .panicked _ => 101

/-- The join loop of `main`:
`handles.into_iter().for_each(|cur_thread| { cur_thread.join().unwrap(); })`.
It visits the workers' results in launch order; a worker that terminated
normally joins as `Ok`, a panicked worker joins as `Err` and the `unwrap`
panics the main thread, abandoning the rest of the loop. Returns the list
of join results the loop actually observed, and how `main` ends. -/
def joinLoop : List (Except Panic Unit) → List (Except Panic Unit) × MainResult
  | [] => ([], .exited0)
  | .error p :: _ => ([.error p], .panicked (.joinUnwrap p))
  | .ok _ :: rest => ((.ok () : Except Panic Unit) :: (joinLoop rest).1, (joinLoop rest).2)

/-- Observable trace of one run of `main` (after CLI parsing):
the logger-init result (only traced, line
`trace!("Initialized logger {:?}", logger_init_result)`), the results the
spawned worker threads run to, the join results the loop observed, and how
the main thread ended. -/
structure MainTrace where
  loggerInitResult : Except LogError Unit
  spawned : List (Except Panic Unit)
  joined : List (Except Panic Unit)
  exit : MainResult
deriving DecidableEq

/-- `main` from `src/main.rs`, given the collaborators' responses:
`init_logging`'s result is only logged; `load_config(..).unwrap()` panics
on a config error before any thread is spawned; otherwise one thread per
repository is spawned running `handle_repository`, then every handle is
joined in launch order with `join().unwrap()`. -/
def mainRun (loggerInit : Except LogError Unit)
    (configResult : Except ConfigError Config) (env : VcsEnv) : MainTrace :=
  match configResult with
  | .error e =>
    { loggerInitResult := loggerInit, spawned := [], joined := []
      exit := .panicked (.configUnwrap e) }
  | .ok config =>
    let handles := config.repositories.map (handle_repository env)
    { loggerInitResult := loggerInit, spawned := handles
      joined := (joinLoop handles).1, exit := (joinLoop handles).2 }

/-- The join loop ends the main thread normally exactly when every worker
terminated normally. -/
theorem joinLoop_exited0_iff (rs : List (Except Panic Unit)) :
    (joinLoop rs).2 = MainResult.exited0 ↔ ∀ x ∈ rs, x = .ok () := by
  induction rs with
  | nil => simp [joinLoop]
  | cons head rest ih =>
    cases head with
    | error p => simp [joinLoop]
    | ok u => simpa [joinLoop] using ih

/-- The join results the loop observes form an initial segment of the
workers' results in launch order. -/
theorem joinLoop_observes_initial_segment (rs : List (Except Panic Unit)) :
    ∃ t, (joinLoop rs).1 ++ t = rs := by
  induction rs with
  | nil => exact ⟨[], rfl⟩
  | cons head rest ih =>
    cases head with
    | error p => exact ⟨rest, rfl⟩
    | ok u =>
      obtain ⟨t, ht⟩ := ih
      exact ⟨t, by simp [joinLoop, ht]⟩

/-- Whether a join observed a normal worker termination. -/
def joinOk : Except Panic Unit → Bool
  | .ok _ => true
  | .error _ => false

/-- The first panic among the workers' results in launch order, if any. -/
def firstPanic (rs : List (Except Panic Unit)) : Option Panic :=
  rs.findSome? fun x =>
    match x with
    | .error p => some p
    | .ok _ => none

/-- The join loop observes exactly the normal terminations up to the first
panic, plus that first panic when there is one. -/
theorem joinLoop_fst_eq (rs : List (Except Panic Unit)) :
    (joinLoop rs).1 = rs.takeWhile joinOk ++ (rs.dropWhile joinOk).take 1 := by
  induction rs with
  | nil => simp [joinLoop]
  | cons head rest ih =>
    cases head with
    | error p => simp [joinLoop, List.takeWhile, List.dropWhile, joinOk]
    | ok u => simp [joinLoop, List.takeWhile, List.dropWhile, joinOk, ih]

/-- How `main` ends is determined by the first panic in launch order:
no panic means a normal exit, otherwise the main thread panics unwrapping
exactly that first worker's join. -/
theorem joinLoop_snd_eq (rs : List (Except Panic Unit)) :
    (joinLoop rs).2 =
      match firstPanic rs with
      | none => MainResult.exited0
      | some p => MainResult.panicked (.joinUnwrap p) := by
  induction rs with
  | nil => simp [joinLoop, firstPanic]
  | cons head rest ih =>
    cases head with
    | error p => simp [joinLoop, firstPanic, List.findSome?]
    | ok u => simpa [joinLoop, firstPanic, List.findSome?] using ih

/-- The mutable VCS world: the client's responses together with the
remote-tracking refs that a successful fetch updates (the only side effect
the program has, per the git2 contract). -/
structure VcsWorld where
  responses : VcsEnv
  trackingRefs : String → List String

/-- The side effect of a successful `Remote::fetch`: the tracking refs of
the fetched working copy now record the fetched branches. Responses of the
client (does the path open, does the remote resolve, does the network
fetch succeed) do not depend on tracking refs and are unchanged. -/
def applyFetchRefs (w : VcsWorld) (path : String) (branches : List String) : VcsWorld :=
  { w with trackingRefs := fun p =>
      if p = path then branches ++ w.trackingRefs p else w.trackingRefs p }

/-- State-threaded variant of `handle_repository`: same control flow as
the source, additionally recording the fetch side effect on the world. -/
def handle_repositoryW (w : VcsWorld) (r : GitRepository) :
    VcsWorld × Except Panic Unit :=
  match w.responses.repoOpen r.local_path with
  | .error e => (w, .error (.openUnwrap e))
  | .ok _ =>
    match w.responses.findRemote r.local_path r.remote with
    | .error e => (w, .error (.resultUnwrap e))
    | .ok _ =>
      match w.responses.fetch r.local_path r.remote r.fetch_branches with
      | .error e => (w, .error (.resultUnwrap e))
      | .ok _ => (applyFetchRefs w r.local_path r.fetch_branches, .ok ())

/-- The spawn loop of `main`, state-threaded: one worker per repository,
in launch order. -/
def spawnAllW (w : VcsWorld) : List GitRepository → VcsWorld × List (Except Panic Unit)
  | [] => (w, [])
  | r :: rest =>
    ((spawnAllW (handle_repositoryW w r).1 rest).1,
     (handle_repositoryW w r).2 :: (spawnAllW (handle_repositoryW w r).1 rest).2)

/-- `main`, state-threaded over the VCS world. -/
def mainRunW (loggerInit : Except LogError Unit)
    (configResult : Except ConfigError Config) (w : VcsWorld) :
    VcsWorld × MainTrace :=
  match configResult with
  | .error e =>
    (w, { loggerInitResult := loggerInit, spawned := [], joined := []
          exit := .panicked (.configUnwrap e) })
  | .ok config =>
    ((spawnAllW w config.repositories).1,
     { loggerInitResult := loggerInit
       spawned := (spawnAllW w config.repositories).2
       joined := (joinLoop (spawnAllW w config.repositories).2).1
       exit := (joinLoop (spawnAllW w config.repositories).2).2 })

/-- A worker never changes the client's responses (fetch touches only
tracking refs). -/
theorem handle_repositoryW_responses (w : VcsWorld) (r : GitRepository) :
    (handle_repositoryW w r).1.responses = w.responses := by
  unfold handle_repositoryW
  cases h1 : w.responses.repoOpen r.local_path with
  | error e => rfl
  | ok u =>
    cases h2 : w.responses.findRemote r.local_path r.remote with
    | error e => rfl
    | ok v =>
      cases h3 : w.responses.fetch r.local_path r.remote r.fetch_branches with
      | error e => rfl
      | ok x => rfl

/-- The state-threaded worker computes the same result as the pure one. -/
theorem handle_repositoryW_result (w : VcsWorld) (r : GitRepository) :
    (handle_repositoryW w r).2 = handle_repository w.responses r := by
  unfold handle_repositoryW handle_repository
  cases h1 : w.responses.repoOpen r.local_path with
  | error e => rfl
  | ok u =>
    cases h2 : w.responses.findRemote r.local_path r.remote with
    | error e => rfl
    | ok v =>
      cases h3 : w.responses.fetch r.local_path r.remote r.fetch_branches with
      | error e => rfl
      | ok x => rfl

/-- The spawn loop never changes the client's responses. -/
theorem spawnAllW_responses (repos : List GitRepository) (w : VcsWorld) :
    (spawnAllW w repos).1.responses = w.responses := by
  induction repos generalizing w with
  | nil => rfl
  | cons r rest ih =>
    calc (spawnAllW w (r :: rest)).1.responses
        = (spawnAllW (handle_repositoryW w r).1 rest).1.responses := rfl
      _ = (handle_repositoryW w r).1.responses := ih _
      _ = w.responses := handle_repositoryW_responses w r

/-- The state-threaded spawn loop computes the same worker results as the
pure model. -/
theorem spawnAllW_results (repos : List GitRepository) (w : VcsWorld) :
    (spawnAllW w repos).2 = repos.map (handle_repository w.responses) := by
  induction repos generalizing w with
  | nil => rfl
  | cons r rest ih =>
    show (handle_repositoryW w r).2 :: (spawnAllW (handle_repositoryW w r).1 rest).2
        = handle_repository w.responses r :: rest.map (handle_repository w.responses)
    rw [handle_repositoryW_result, ih, handle_repositoryW_responses]

/-- The state-threaded `main` produces the trace of the pure model run
against the world's responses. -/
theorem mainRunW_trace (loggerInit : Except LogError Unit)
    (configResult : Except ConfigError Config) (w : VcsWorld) :
    (mainRunW loggerInit configResult w).2 = mainRun loggerInit configResult w.responses := by
  cases configResult with
  | error e => rfl
  | ok config =>
    show MainTrace.mk loggerInit (spawnAllW w config.repositories).2
        (joinLoop (spawnAllW w config.repositories).2).1
        (joinLoop (spawnAllW w config.repositories).2).2
      = MainTrace.mk loggerInit (config.repositories.map (handle_repository w.responses))
        (joinLoop (config.repositories.map (handle_repository w.responses))).1
        (joinLoop (config.repositories.map (handle_repository w.responses))).2
    rw [spawnAllW_results]

/-- A whole run of `main` never changes the client's responses. -/
theorem mainRunW_responses (loggerInit : Except LogError Unit)
    (configResult : Except ConfigError Config) (w : VcsWorld) :
    (mainRunW loggerInit configResult w).1.responses = w.responses := by
  cases configResult with
  | error e => rfl
  | ok config => exact spawnAllW_responses config.repositories w

/-- `exitCode` is zero exactly on a normal return of `main`. -/
theorem exitCode_eq_zero_iff (m : MainResult) :
    exitCode m = 0 ↔ m = MainResult.exited0 := by
  cases m <;> simp [exitCode]

/-- All spawned workers terminated normally iff every task's spec-level
outcome is `Success`. -/
theorem allWorkersOk_iff (env : VcsEnv) (repos : List GitRepository) :
    (∀ x ∈ repos.map (handle_repository env), x = Except.ok ()) ↔
      ∀ r ∈ repos, specWorkerRun env r = SyncOutcome.Success := by
  constructor
  · intro h r hr
    rw [← worker_ok_iff_success]
    exact h _ (List.mem_map_of_mem _ hr)
  · intro h x hx
    obtain ⟨r, hr, rfl⟩ := List.mem_map.mp hx
    rw [worker_ok_iff_success]
    exact h r hr

/-- A successful logger initialization. -/
def logOk : Except LogError Unit := .ok ()

/-- git2's error for a path that does not contain a repository. -/
def errNoRepo : GitError := ⟨"could not find repository"⟩

/-- A client under which no local path opens (e.g. no path exists) while
remote resolution and fetch would succeed. -/
def envOpenFails : VcsEnv :=
  { repoOpen := fun _ => .error errNoRepo
    findRemote := fun _ _ => .ok ()
    fetch := fun _ _ _ => .ok () }

/-- A concrete task at `/repos/a`. -/
def taskA : GitRepository := ⟨"/repos/a", "origin", ["main"]⟩

/-- A concrete task at `/repos/b`. -/
def taskB : GitRepository := ⟨"/repos/b", "origin", ["main"]⟩

/-- A concrete task whose branch list is empty. -/
def taskNoBranches : GitRepository := ⟨"/repos/c", "origin", []⟩

/-- git2's error for the missing path `/repos/bad`. -/
def errBad : GitError := ⟨"could not open /repos/bad"⟩

/-- A client under which only `/repos/bad` fails to open; every other
operation succeeds. -/
def envMixed : VcsEnv :=
  { repoOpen := fun p => if p = "/repos/bad" then .error errBad else .ok ()
    findRemote := fun _ _ => .ok ()
    fetch := fun _ _ _ => .ok () }

/-- The failing task of the mixed scenario. -/
def taskBad : GitRepository := ⟨"/repos/bad", "origin", ["main"]⟩

/-- The healthy sibling task of the mixed scenario. -/
def taskGood : GitRepository := ⟨"/repos/good", "origin", ["main"]⟩

/-- A client under which every open fails, with a distinct error naming
the path. -/
def envBothFail : VcsEnv :=
  { repoOpen := fun p => .error ⟨"cannot open " ++ p⟩
    findRemote := fun _ _ => .ok ()
    fetch := fun _ _ _ => .ok () }

/-- C1 counterexample: with tasks `[taskBad, taskGood]` where only
`taskBad` fails at the VCS level, the failure is not recorded as a
`Failure` outcome — `main` panics unwrapping `taskBad`'s join, aborting
the orchestration, and the healthy sibling's outcome is never reported:
the join loop observed only `taskBad`'s panic. -/
theorem C1_counterexample :
    specWorkerRun envMixed taskBad ≠ SyncOutcome.Success
  ∧ specWorkerRun envMixed taskGood = SyncOutcome.Success
  ∧ (mainRun logOk (.ok ⟨[taskBad, taskGood]⟩) envMixed).exit
      = MainResult.panicked (.joinUnwrap (.openUnwrap errBad))
  ∧ (mainRun logOk (.ok ⟨[taskBad, taskGood]⟩) envMixed).joined
      = [.error (.openUnwrap errBad)] := by
  decide

/-- C1 (amended): a VCS-level failure of a task is not recorded as a
`Failure` outcome — the failing worker panics and `main` aborts at its
join, so the join results the orchestration observes are only an initial
segment of the workers' results in launch order. Nevertheless the main
thread returns normally (exit 0) exactly when every task's outcome is
`Success`. -/
theorem C1_vcs_failure_aborts_join_but_success_iff_all
    (li : Except LogError Unit) (env : VcsEnv) (repos : List GitRepository) :
    ((mainRun li (.ok ⟨repos⟩) env).exit = MainResult.exited0 ↔
      ∀ r ∈ repos, specWorkerRun env r = SyncOutcome.Success)
  ∧ ∃ t, (mainRun li (.ok ⟨repos⟩) env).joined ++ t
      = (mainRun li (.ok ⟨repos⟩) env).spawned := by
  constructor
  · show (joinLoop (repos.map (handle_repository env))).2 = MainResult.exited0 ↔ _
    rw [joinLoop_exited0_iff]
    exact allWorkersOk_iff env repos
  · exact joinLoop_observes_initial_segment (repos.map (handle_repository env))

/-- C2 counterexample: under `envOpenFails` the worker for `taskA` does
not return any outcome value — in particular not
`Failure(NotFound, "/repos/a")` — it terminates abnormally, panicking at
`Repository::open(..).unwrap()`; `Failure(NotFound, "/repos/a")` is only
the spec-level classification of that abnormal termination. -/
theorem C2_counterexample :
    handle_repository envOpenFails taskA = .error (.openUnwrap errNoRepo)
  ∧ handle_repository envOpenFails taskA ≠ .ok ()
  ∧ specWorkerRun envOpenFails taskA = .Failure .NotFound "/repos/a" := by
  decide

/-- C2 (amended): the worker returns no `SyncOutcome`; it terminates
normally (returning `()`) exactly when open, remote resolution and fetch
all succeed, and otherwise panics at the first failing step, carrying that
step's raw VCS error (not the local path). Classifying its termination by
the failing step agrees exactly with the spec's mapping: open failure ↔
`Failure(NotFound, local_path)`, remote-resolution failure ↔
`Failure(RemoteNotFound, local_path)` (the worker panics at the
`result.unwrap()` site, fetch never attempted), fetch failure ↔
`Failure(FetchFailed(cause), local_path)`. -/
theorem C2_worker_termination_matches_spec_mapping
    (env : VcsEnv) (r : GitRepository) :
    (specWorkerRun env r = SyncOutcome.Success ↔
      handle_repository env r = .ok ())
  ∧ (specWorkerRun env r = .Failure .NotFound r.local_path ↔
      ∃ e, env.repoOpen r.local_path = .error e ∧
        handle_repository env r = .error (.openUnwrap e))
  ∧ (specWorkerRun env r = .Failure .RemoteNotFound r.local_path ↔
      ∃ e, env.findRemote r.local_path r.remote = .error e ∧
        handle_repository env r = .error (.resultUnwrap e))
  ∧ ∀ c, specWorkerRun env r = .Failure (.FetchFailed c) r.local_path ↔
      env.findRemote r.local_path r.remote = .ok () ∧
        env.fetch r.local_path r.remote r.fetch_branches = .error c ∧
        handle_repository env r = .error (.resultUnwrap c) := by
  unfold handle_repository specWorkerRun
  cases h1 : env.repoOpen r.local_path with
  | error e => simp [h1]
  | ok u =>
    cases h2 : env.findRemote r.local_path r.remote with
    | error e => cases u; simp [h1, h2]
    | ok v =>
      cases h3 : env.fetch r.local_path r.remote r.fetch_branches with
      | error e => cases u; cases v; simp [h1, h2, h3, eq_comm]
      | ok x => cases u; cases v; cases x; simp [h1, h2, h3]

/-- C3: the process exit status is zero exactly when every task's outcome
is `Success`; any `Failure` outcome — which in this program surfaces as a
worker crash — makes it non-zero (`main` panics, exit code 101). -/
theorem C3_exit_zero_iff_all_success (li : Except LogError Unit)
    (env : VcsEnv) (repos : List GitRepository) :
    exitCode (mainRun li (.ok ⟨repos⟩) env).exit = 0 ↔
      ∀ r ∈ repos, specWorkerRun env r = SyncOutcome.Success := by
  rw [exitCode_eq_zero_iff]
  show (joinLoop (repos.map (handle_repository env))).2 = MainResult.exited0 ↔ _
  rw [joinLoop_exited0_iff]
  exact allWorkersOk_iff env repos

/-- C4 counterexample: with tasks `[taskBad, taskGood]`, the orchestration
does not wait for all outcomes — `main` panics at `taskBad`'s join having
observed one join result out of two, so `taskGood`'s outcome is never
known to it. -/
theorem C4_counterexample :
    (mainRun logOk (.ok ⟨[taskBad, taskGood]⟩) envMixed).spawned.length = 2
  ∧ (mainRun logOk (.ok ⟨[taskBad, taskGood]⟩) envMixed).joined.length = 1
  ∧ (mainRun logOk (.ok ⟨[taskBad, taskGood]⟩) envMixed).exit
      ≠ MainResult.exited0 := by
  decide

/-- C4 (amended): `main` joins the units in launch order and stops at the
first failed join: the join results it observes are exactly the normal
terminations before the first panic, plus that panic if one exists — so
all outcomes are awaited only when no unit before the last panic-free
position fails (in particular, whenever every unit succeeds). -/
theorem C4_join_stops_at_first_failed_join (li : Except LogError Unit)
    (env : VcsEnv) (repos : List GitRepository) :
    (mainRun li (.ok ⟨repos⟩) env).joined
      = (mainRun li (.ok ⟨repos⟩) env).spawned.takeWhile joinOk
        ++ ((mainRun li (.ok ⟨repos⟩) env).spawned.dropWhile joinOk).take 1 :=
  joinLoop_fst_eq (repos.map (handle_repository env))

/-- C5 counterexample: with two failing tasks, the exit status is non-zero
but only the first failure (at `/repos/a`) is observed by the join loop;
the second failing repository (`/repos/b`) is never surfaced by it. -/
theorem C5_counterexample :
    specWorkerRun envBothFail taskA ≠ SyncOutcome.Success
  ∧ specWorkerRun envBothFail taskB ≠ SyncOutcome.Success
  ∧ exitCode (mainRun logOk (.ok ⟨[taskA, taskB]⟩) envBothFail).exit ≠ 0
  ∧ (mainRun logOk (.ok ⟨[taskA, taskB]⟩) envBothFail).joined
      = [.error (.openUnwrap ⟨"cannot open /repos/a"⟩)]
  ∧ Except.error (Panic.openUnwrap ⟨"cannot open /repos/b"⟩)
      ∉ (mainRun logOk (.ok ⟨[taskA, taskB]⟩) envBothFail).joined := by
  decide

/-- C5 (amended): when any task fails the process exits non-zero, but the
orchestration surfaces only the first failure in join order: `main` ends
normally when no worker panicked, and otherwise its own panic carries
exactly the first worker panic in launch order — later failures are not
reported by the join loop. -/
theorem C5_abort_carries_only_first_failure (li : Except LogError Unit)
    (env : VcsEnv) (repos : List GitRepository) :
    (mainRun li (.ok ⟨repos⟩) env).exit
      = match firstPanic ((mainRun li (.ok ⟨repos⟩) env).spawned) with
        | none => MainResult.exited0
        | some p => MainResult.panicked (.joinUnwrap p) :=
  joinLoop_snd_eq (repos.map (handle_repository env))

/-- C6: on the empty task list the run spawns nothing, joins nothing and
`main` returns normally — exit code 0, the vacuous success aggregate. -/
theorem C6_empty_task_list_exits_zero (li : Except LogError Unit)
    (env : VcsEnv) :
    mainRun li (.ok ⟨[]⟩) env
      = { loggerInitResult := li, spawned := [], joined := []
          exit := MainResult.exited0 }
  ∧ exitCode (mainRun li (.ok ⟨[]⟩) env).exit = 0 :=
  ⟨rfl, rfl⟩

/-- C7 counterexample: a task whose branch list is empty does not have
outcome `Success` unconditionally — under `envOpenFails` its outcome is
`Failure(NotFound, "/repos/c")` and its worker panics. -/
theorem C7_counterexample :
    taskNoBranches.fetch_branches = []
  ∧ specWorkerRun envOpenFails taskNoBranches = .Failure .NotFound "/repos/c"
  ∧ specWorkerRun envOpenFails taskNoBranches ≠ SyncOutcome.Success
  ∧ handle_repository envOpenFails taskNoBranches ≠ .ok () := by
  decide

/-- C7 (amended): an empty branch list gets no special treatment: the
worker still opens the repository, resolves the remote and invokes fetch
with the empty list, and it terminates normally (outcome `Success`)
exactly when all three operations succeed — just like any other task. -/
theorem C7_empty_branches_no_special_case (env : VcsEnv)
    (path remoteName : String) :
    (handle_repository env ⟨path, remoteName, []⟩ = .ok () ↔
      env.repoOpen path = .ok () ∧ env.findRemote path remoteName = .ok ()
        ∧ env.fetch path remoteName [] = .ok ())
  ∧ (specWorkerRun env ⟨path, remoteName, []⟩ = SyncOutcome.Success ↔
      handle_repository env ⟨path, remoteName, []⟩ = .ok ()) := by
  constructor
  · unfold handle_repository
    cases h1 : env.repoOpen path with
    | error e => simp [h1]
    | ok u =>
      cases h2 : env.findRemote path remoteName with
      | error e => cases u; simp [h1, h2]
      | ok v =>
        cases h3 : env.fetch path remoteName [] with
        | error e => cases u; cases v; simp [h1, h2, h3]
        | ok x => cases u; cases v; cases x; simp [h1, h2, h3]
  · exact (worker_ok_iff_success env ⟨path, remoteName, []⟩).symm

/-- C8: a config-loading failure panics `main` before any thread is
spawned: no worker is launched, the exit code is 101 (non-zero), and the
VCS world is untouched. -/
theorem C8_config_error_fatal_before_orchestration
    (li : Except LogError Unit) (e : ConfigError) (env : VcsEnv)
    (w : VcsWorld) :
    (mainRun li (.error e) env).spawned = []
  ∧ (mainRun li (.error e) env).exit = MainResult.panicked (.configUnwrap e)
  ∧ exitCode (mainRun li (.error e) env).exit = 101
  ∧ exitCode (mainRun li (.error e) env).exit ≠ 0
  ∧ (mainRunW li (.error e) w).1 = w :=
  ⟨rfl, rfl, rfl, by simp [mainRun, exitCode], rfl⟩

/-- C9: running `main` a second time on the same task list, starting from
the world the first run produced (the client's responses unchanged, since
a run only updates tracking refs), yields the same trace — spawned
results, joined results and exit — as the first run. -/
theorem C9_second_run_same_result (li : Except LogError Unit)
    (configResult : Except ConfigError Config) (w : VcsWorld) :
    (mainRunW li configResult (mainRunW li configResult w).1).2
      = (mainRunW li configResult w).2 := by
  rw [mainRunW_trace, mainRunW_trace, mainRunW_responses]

/-- C10: a logger-initialization failure is never fatal: the run with a
failed `init_logging` spawns, joins and exits exactly as the run with a
successful one (the result is only traced), and it still launches one
worker per configured repository. -/
theorem C10_logger_failure_never_fatal (lerr : LogError)
    (configResult : Except ConfigError Config) (env : VcsEnv)
    (repos : List GitRepository) :
    (mainRun (.error lerr) configResult env).spawned
      = (mainRun (.ok ()) configResult env).spawned
  ∧ (mainRun (.error lerr) configResult env).joined
      = (mainRun (.ok ()) configResult env).joined
  ∧ (mainRun (.error lerr) configResult env).exit
      = (mainRun (.ok ()) configResult env).exit
  ∧ (mainRun (.error lerr) (.ok ⟨repos⟩) env).spawned
      = repos.map (handle_repository env) := by
  refine ⟨?_, ?_, ?_, rfl⟩ <;> cases configResult <;> rfl

end GitAutoFetch
